import Mathlib

/-!
Shallow embedding of `src/main.go` (dyammarcano/exampleGoCRUD): a CRUD HTTP
service over two SQLite tables, `users` and `uuid_map`.  The store is modelled
as explicit state: a list of `users` rows, a list of `uuid_map` rows, and the
autoincrement counter for the `users` primary key.  UUID generation
(`uuid.New().String()`) and the clock (`time.Now().Format(...)`) are external
effects and enter the model as explicit string parameters; their library
guarantees (validity, non-repetition) appear as hypotheses where a claim
needs them.
-/

namespace ExampleGoCRUD

/-- A row of the `users` table
(`id INTEGER PRIMARY KEY AUTOINCREMENT, username, age, email, phone, createAt`). -/
structure UserRow where
  id       : Nat
  username : String
  age      : Nat
  email    : String
  phone    : String
  createAt : String
deriving DecidableEq, Repr

/-- A row of the `uuid_map` table, as used by the code: `user_id` and `uuid`
(the autoincrement `id` and the default timestamps are never read). -/
structure MapRow where
  userId : Nat
  uuid   : String
deriving DecidableEq, Repr

/-- The Go `User` struct: `ID` (json:"-"), `UUID`, `Username`, `Email`,
`Phone`, `Age`, `CreateAt`. -/
structure User where
  ID       : Nat
  UUID     : String
  Username : String
  Email    : String
  Phone    : String
  Age      : Nat
  CreateAt : String
deriving DecidableEq, Repr

/-- Database state: the two tables plus the autoincrement counter of the
`users` table (`LastInsertId` returns the key just assigned). -/
structure State where
  users    : List UserRow
  mappings : List MapRow
  nextId   : Nat
deriving DecidableEq, Repr

/-- The only store error the record layer distinguishes: `sql.ErrNoRows`. -/
inductive DbError where
  | noRows
deriving DecidableEq, Repr

/-- `StructScan` of a `SELECT * FROM users` row into the `User` struct: the
columns id/username/age/email/phone/createAt map to fields; the `UUID` field
has no matching column and keeps its zero value `""`. -/
def scanRow (r : UserRow) : User :=
  { ID := r.id, UUID := "", Username := r.username, Email := r.email,
    Phone := r.phone, Age := r.age, CreateAt := r.createAt }

/-- The join of `SqlSeletUer`: scan `uuid_map` rows in order; for a row whose
`uuid` matches, pair it with the first `users` row whose `id` equals its
`user_id`; `db.Get` keeps the first such joined row. -/
def joinFind (users : List UserRow) (u : String) : List MapRow → Option UserRow
  | [] => none
  | m :: ms =>
    if m.uuid = u then
      match users.find? (fun x => x.id == m.userId) with
      | some r => some r
      | none => joinFind users u ms
    else joinFind users u ms

/-- `getUserByUUID`: run the join query; `sql.ErrNoRows` when it is empty,
otherwise the scanned row with `user.UUID = uuid` set afterwards. -/
def getUserByUUID (s : State) (uuid : String) : Except DbError User :=
  match joinFind s.users uuid s.mappings with
  | none => .error .noRows
  | some r => .ok { scanRow r with UUID := uuid }

/-- `createUser`: overwrite `user.UUID` with the freshly generated UUID and
`user.CreateAt` with the formatted current time, insert the user row
(receiving the autoincrement key), then insert the mapping row binding the
key to the UUID.  Returns the new state and the mutated `user` the handler
serializes. -/
def createUser (s : State) (inp : User) (genUuid now : String) : State × User :=
  let u : User := { inp with UUID := genUuid, CreateAt := now }
  let row : UserRow :=
    { id := s.nextId, username := u.Username, age := u.Age,
      email := u.Email, phone := u.Phone, createAt := u.CreateAt }
  let s1 : State :=
    { s with users := s.users ++ [row], nextId := s.nextId + 1 }
  let s2 : State :=
    { s1 with mappings := s1.mappings ++ [{ userId := row.id, uuid := u.UUID }] }
  (s2, u)

/-- `updateUser`: resolve the external identifier via `getUserByUUID`; on
success run `SqlUpdateUser`, overwriting username/age/email/phone of every
`users` row whose `id` equals the resolved key. -/
def updateUser (s : State) (inp : User) : Except DbError State :=
  match getUserByUUID s inp.UUID with
  | .error e => .error e
  | .ok r =>
    .ok { s with
          users := s.users.map (fun u =>
            if u.id = r.ID then
              { u with username := inp.Username, age := inp.Age,
                       email := inp.Email, phone := inp.Phone }
            else u) }

/-- `deleteUser`: `DELETE FROM users WHERE id IN (SELECT user_id FROM
uuid_map WHERE uuid = ?)`, then `DELETE FROM uuid_map WHERE uuid = ?`.
Neither statement can fail in the model, matching the code's happy path. -/
def deleteUser (s : State) (uid : String) : State :=
  let s1 : State :=
    { s with users := s.users.filter (fun u =>
        !(s.mappings.any (fun m => m.uuid == uid && m.userId == u.id))) }
  { s1 with mappings := s1.mappings.filter (fun m => !(m.uuid == uid)) }

/-- Outcome of one handler call: HTTP status written, resulting store state,
number of store statements executed, and the JSON body when one is written. -/
structure HandlerOut where
  status   : Nat
  state    : State
  ops      : Nat
  userBody : Option User := none
  listBody : Option (List User) := none
deriving DecidableEq, Repr

/-- `AddUserHandler`: POST only; decode failure → 400; otherwise
`createUser` and serialize the user (200). -/
def AddUserHandler (method : String) (body : Option User) (genUuid now : String)
    (s : State) : HandlerOut :=
  if method ≠ "POST" then { status := 405, state := s, ops := 0 }
  else
    match body with
    | none => { status := 400, state := s, ops := 0 }
    | some inp =>
      let p := createUser s inp genUuid now
      { status := 200, state := p.1, ops := 2, userBody := some p.2 }

/-- `GetUsersHandler`: GET only; `SELECT * FROM users` and `StructScan`
each row (200). -/
def GetUsersHandler (method : String) (s : State) : HandlerOut :=
  if method ≠ "GET" then { status := 405, state := s, ops := 0 }
  else { status := 200, state := s, ops := 1,
         listBody := some (s.users.map scanRow) }

/-- `GetUserHandler`: GET only; missing `id` → 400 before any query;
`sql.ErrNoRows` → 404; otherwise 200 with the user. -/
def GetUserHandler (method id : String) (s : State) : HandlerOut :=
  if method ≠ "GET" then { status := 405, state := s, ops := 0 }
  else if id = "" then { status := 400, state := s, ops := 0 }
  else
    match getUserByUUID s id with
    | .error .noRows => { status := 404, state := s, ops := 1 }
    | .ok u => { status := 200, state := s, ops := 1, userBody := some u }

/-- `DeleteUserHandler`: DELETE only; missing `id` → 400; otherwise
`deleteUser` and an implicit 200 with empty body. -/
def DeleteUserHandler (method id : String) (s : State) : HandlerOut :=
  if method ≠ "DELETE" then { status := 405, state := s, ops := 0 }
  else if id = "" then { status := 400, state := s, ops := 0 }
  else { status := 200, state := deleteUser s id, ops := 2 }

/-- `UpdateUserHandler`: PUT only; decode failure → 400; any `updateUser`
error (including `sql.ErrNoRows`) → 400; success → 200 echoing the decoded
input. -/
def UpdateUserHandler (method : String) (body : Option User) (s : State) :
    HandlerOut :=
  if method ≠ "PUT" then { status := 405, state := s, ops := 0 }
  else
    match body with
    | none => { status := 400, state := s, ops := 0 }
    | some inp =>
      match updateUser s inp with
      | .error _ => { status := 400, state := s, ops := 1 }
      | .ok s' => { status := 200, state := s', ops := 2, userBody := some inp }

/-- Spec §3 invariant: every live user row has exactly one mapping row and
every mapping row references exactly one user row. -/
def Invariant (s : State) : Prop :=
  (∀ u ∈ s.users, s.mappings.countP (fun m => m.userId == u.id) = 1) ∧
  (∀ m ∈ s.mappings, s.users.countP (fun x => x.id == m.userId) = 1)

/-- Store well-formedness guaranteed by SQLite: `AUTOINCREMENT` keys already
assigned are below the counter (so a new key is fresh) and primary keys of
`users` are pairwise distinct. -/
def Wf (s : State) : Prop :=
  (∀ u ∈ s.users, u.id < s.nextId) ∧
  (∀ m ∈ s.mappings, m.userId < s.nextId) ∧
  (s.users.map (·.id)).Nodup

/-- Hexadecimal digit check, for UUID syntax. -/
def isHexDigit (c : Char) : Bool :=
  c.isDigit || ('a' ≤ c && c ≤ 'f') || ('A' ≤ c && c ≤ 'F')

/-- Canonical textual UUID syntax (as produced by `uuid.New().String()`):
36 characters, hyphens at offsets 8, 13, 18, 23, hex digits elsewhere. -/
def isValidUUID (t : String) : Bool :=
  let cs := t.toList
  cs.length == 36 &&
    (List.range 36).all (fun i =>
      if i == 8 || i == 13 || i == 18 || i == 23 then cs.getD i ' ' == '-'
      else isHexDigit (cs.getD i ' '))

/-- One creation request: decoded body plus the environment effects consumed
by `createUser` (the generated UUID and the formatted current time). -/
structure CreateReq where
  inp : User
  gid : String
  now : String

/-- Iterated creation, threading the store state. -/
def createList (s : State) : List CreateReq → State
  | [] => s
  | t :: ts => createList (createUser s t.inp t.gid t.now).1 ts

end ExampleGoCRUD

namespace ExampleGoCRUD

/-! ### Concrete sample data, used by witness theorems -/

/-- An empty store, as produced by `NewDataProvider` on a fresh database. -/
def emptyState : State := { users := [], mappings := [], nextId := 1 }

/-- A sample decoded request body. -/
def aliceInput : User :=
  { ID := 0, UUID := "", Username := "alice", Email := "a@x.com",
    Phone := "555", Age := 30, CreateAt := "" }

/-- A one-user store: alice stored under internal key 1, external id "u-1". -/
def oneUserState : State :=
  { users := [{ id := 1, username := "alice", age := 30, email := "a@x.com",
                phone := "555", createAt := "t0" }],
    mappings := [{ userId := 1, uuid := "u-1" }],
    nextId := 2 }

/-- The user record that `get` returns for `"u-1"` in `oneUserState`. -/
def aliceRecord : User :=
  { ID := 1, UUID := "u-1", Username := "alice", Email := "a@x.com",
    Phone := "555", Age := 30, CreateAt := "t0" }

/-- A decoded update body addressing `"u-1"` with changed fields. -/
def bobInput : User :=
  { ID := 0, UUID := "u-1", Username := "bob", Email := "b@x.com",
    Phone := "666", Age := 31, CreateAt := "" }

/-- A decoded body whose external identifier resolves to nothing. -/
def unknownInput : User :=
  { ID := 0, UUID := "u-404", Username := "alice", Email := "a@x.com",
    Phone := "555", Age := 30, CreateAt := "" }

/-- A concrete syntactically valid UUID. -/
def uuidA : String := "123e4567-e89b-12d3-a456-426614174000"

/-- A second, distinct, syntactically valid UUID. -/
def uuidB : String := "123e4567-e89b-12d3-a456-426614174001"

/-- Two concrete creation requests, for witnesses. -/
def twoReqs : List CreateReq :=
  [{ inp := aliceInput, gid := "u-1", now := "t0" },
   { inp := bobInput, gid := "u-2", now := "t1" }]

/-! ### List helper lemmas -/

theorem countP_eq_one_unique {α : Type} {l : List α} {p : α → Bool}
    (h : l.countP p = 1) {a b : α} (ha : a ∈ l) (hpa : p a = true)
    (hb : b ∈ l) (hpb : p b = true) : a = b := by
  rw [List.countP_eq_length_filter] at h
  obtain ⟨c, hc⟩ := List.length_eq_one.mp h
  have ha' : a ∈ l.filter p := List.mem_filter.mpr ⟨ha, hpa⟩
  have hb' : b ∈ l.filter p := List.mem_filter.mpr ⟨hb, hpb⟩
  rw [hc, List.mem_singleton] at ha' hb'
  rw [ha', hb']

theorem joinFind_append (users : List UserRow) (u : String)
    (ms₁ ms₂ : List MapRow) :
    joinFind users u (ms₁ ++ ms₂) =
      (joinFind users u ms₁).or (joinFind users u ms₂) := by
  induction ms₁ with
  | nil => rfl
  | cons m ms ih =>
    by_cases h : m.uuid = u
    · simp only [List.cons_append, joinFind, if_pos h]
      cases users.find? (fun x => x.id == m.userId) with
      | some r => rfl
      | none => exact ih
    · simp only [List.cons_append, joinFind, if_neg h]
      exact ih

theorem joinFind_eq_none (users : List UserRow) (u : String)
    (ms : List MapRow) (h : ∀ m ∈ ms, m.uuid ≠ u) :
    joinFind users u ms = none := by
  induction ms with
  | nil => rfl
  | cons m ms ih =>
    simp only [joinFind, if_neg (h m (List.mem_cons_self m ms))]
    exact ih fun m' hm' => h m' (List.mem_cons_of_mem m hm')

theorem find?_map_preserving (l : List UserRow) (f : UserRow → UserRow)
    (k : Nat) (hf : ∀ x, (f x).id = x.id) :
    (l.map f).find? (fun x => x.id == k) =
      (l.find? (fun x => x.id == k)).map f := by
  induction l with
  | nil => rfl
  | cons a l ih =>
    cases h : (a.id == k) with
    | true =>
      simp only [List.map_cons, List.find?, hf a, h]
      rfl
    | false =>
      simp only [List.map_cons, List.find?, hf a, h]
      exact ih

theorem joinFind_map (users : List UserRow) (f : UserRow → UserRow)
    (u : String) (ms : List MapRow) (hf : ∀ x, (f x).id = x.id) :
    joinFind (users.map f) u ms = (joinFind users u ms).map f := by
  induction ms with
  | nil => rfl
  | cons m ms ih =>
    by_cases h : m.uuid = u
    · simp only [joinFind, if_pos h, find?_map_preserving users f m.userId hf]
      cases users.find? (fun x => x.id == m.userId) with
      | some r => rfl
      | none => exact ih
    · simp only [joinFind, if_neg h]
      exact ih

/-! ### C1 -/

/-- C1: starting from a store satisfying the user/mapping one-to-one
correspondence (and the store's own key-freshness well-formedness), both a
successful `createUser` (user row inserted, then mapping row binding the new
UUID to the new autoincrement key) and a successful `deleteUser` (user row
removed via the mapping, then the mapping rows for the identifier removed)
preserve the correspondence. -/
theorem C1_invariant_preserved (s : State) (inp : User) (g now uid : String)
    (hI : Invariant s) (hW : Wf s) :
    Invariant (createUser s inp g now).1 ∧ Invariant (deleteUser s uid) := by
  obtain ⟨hI1, hI2⟩ := hI
  obtain ⟨hW1, hW2, _⟩ := hW
  constructor
  · -- create preserves the invariant
    constructor
    · intro u hu
      simp only [createUser, List.mem_append, List.mem_singleton] at hu
      simp only [createUser, List.countP_append, List.countP_cons,
        List.countP_nil]
      rcases hu with hu | hu
      · have hlt := hW1 u hu
        have hne : (s.nextId == u.id) = false := by
          simp only [beq_eq_false_iff_ne]
          omega
        simp [hne, hI1 u hu]
      · subst hu
        have hzero : s.mappings.countP (fun m => m.userId == s.nextId) = 0 := by
          rw [List.countP_eq_zero]
          intro m hm
          have := hW2 m hm
          simp only [beq_iff_eq]
          omega
        simp [hzero]
    · intro m hm
      simp only [createUser, List.mem_append, List.mem_singleton] at hm
      simp only [createUser, List.countP_append, List.countP_cons,
        List.countP_nil]
      rcases hm with hm | hm
      · have hlt := hW2 m hm
        have hne : (s.nextId == m.userId) = false := by
          simp only [beq_eq_false_iff_ne]
          omega
        simp [hne, hI2 m hm]
      · subst hm
        have hzero : s.users.countP (fun x => x.id == s.nextId) = 0 := by
          rw [List.countP_eq_zero]
          intro u hu
          have := hW1 u hu
          simp only [beq_iff_eq]
          omega
        simp [hzero]
  · -- delete preserves the invariant
    constructor
    · intro u hu
      simp only [deleteUser, List.mem_filter] at hu
      obtain ⟨hu, hkeep⟩ := hu
      simp only [Bool.not_eq_eq_eq_not, Bool.not_true, List.any_eq_false,
        Bool.and_eq_true, beq_iff_eq, not_and] at hkeep
      simp only [deleteUser, List.countP_filter]
      rw [List.countP_congr (q := fun m => m.userId == u.id) ?_]
      · exact hI1 u hu
      · intro m hm
        simp only [Bool.and_eq_true, Bool.not_eq_eq_eq_not, Bool.not_true,
          beq_iff_eq, beq_eq_false_iff_ne]
        constructor
        · exact fun h => h.1
        · intro h
          exact ⟨h, fun huu => hkeep m hm huu h⟩
    · intro m hm
      simp only [deleteUser, List.mem_filter, Bool.not_eq_eq_eq_not,
        Bool.not_true, beq_eq_false_iff_ne] at hm
      obtain ⟨hm, hmuuid⟩ := hm
      simp only [deleteUser, List.countP_filter]
      rw [List.countP_congr (q := fun x => x.id == m.userId) ?_]
      · exact hI2 m hm
      · intro u hu
        simp only [Bool.and_eq_true, beq_iff_eq, Bool.not_eq_eq_eq_not,
          Bool.not_true, List.any_eq_false, Bool.and_eq_true, not_and]
        constructor
        · exact fun h => h.1
        · intro hid
          refine ⟨hid, fun m' hm' huu' hid' => ?_⟩
          have hmm' : m = m' := by
            refine countP_eq_one_unique (hI1 u hu) hm ?_ hm' ?_
            · simp [beq_iff_eq, hid]
            · simp [beq_iff_eq, hid']
          exact hmuuid (hmm' ▸ huu')

/-- Witness for C1: the hypotheses hold at the concrete one-user store. -/
theorem C1_invariant_preserved_witness :
    Invariant (createUser oneUserState aliceInput "u-2" "t1").1 ∧
    Invariant (deleteUser oneUserState "u-1") :=
  C1_invariant_preserved oneUserState aliceInput "u-2" "t1" "u-1"
    (by constructor <;> decide) (by refine ⟨?_, ?_, ?_⟩ <;> decide)

end ExampleGoCRUD

namespace ExampleGoCRUD

/-! ### C2 -/

/-- C2: a successful create followed by a get on the identifier returned in
the creation response yields a record with the username, age, email and
phone supplied at creation.  Hypotheses: the store's keys are well formed
and the generated UUID is fresh (the `uuid` library guarantee). -/
theorem getUserByUUID_create (s : State) (inp : User) (g now : String)
    (hW1 : ∀ u ∈ s.users, u.id < s.nextId)
    (hfresh : ∀ m ∈ s.mappings, m.uuid ≠ g) :
    getUserByUUID (createUser s inp g now).1 g =
      .ok { ID := s.nextId, UUID := g, Username := inp.Username,
            Email := inp.Email, Phone := inp.Phone, Age := inp.Age,
            CreateAt := now } := by
  have hnone : s.users.find? (fun x => x.id == s.nextId) = none := by
    rw [List.find?_eq_none]
    intro x hx
    have := hW1 x hx
    simp only [beq_iff_eq]
    omega
  have husers : (createUser s inp g now).1.users =
      s.users ++ [{ id := s.nextId, username := inp.Username, age := inp.Age,
                    email := inp.Email, phone := inp.Phone,
                    createAt := now }] := rfl
  have hmaps : (createUser s inp g now).1.mappings =
      s.mappings ++ [{ userId := s.nextId, uuid := g }] := rfl
  simp [getUserByUUID, husers, hmaps, joinFind_append,
    joinFind_eq_none _ _ _ hfresh, joinFind, List.find?_append, hnone,
    List.find?, scanRow]

/-- C2: a successful create followed by a get on the identifier returned in
the creation response yields a record with the username, age, email and
phone supplied at creation.  Hypotheses: the store's keys are well formed
and the generated UUID is fresh (the `uuid` library guarantee). -/
theorem C2_create_get_roundtrip (s : State) (inp : User) (g now : String)
    (hW : Wf s) (hfresh : ∀ m ∈ s.mappings, m.uuid ≠ g) :
    ∃ r : User,
      getUserByUUID (createUser s inp g now).1
        (createUser s inp g now).2.UUID = .ok r ∧
      r.Username = inp.Username ∧ r.Age = inp.Age ∧
      r.Email = inp.Email ∧ r.Phone = inp.Phone :=
  ⟨{ ID := s.nextId, UUID := g, Username := inp.Username,
     Email := inp.Email, Phone := inp.Phone, Age := inp.Age,
     CreateAt := now },
    getUserByUUID_create s inp g now hW.1 hfresh, rfl, rfl, rfl, rfl⟩

/-- Witness for C2: concrete creation in the one-user store with a fresh
identifier. -/
theorem C2_create_get_roundtrip_witness :
    ∃ r : User,
      getUserByUUID (createUser oneUserState aliceInput "u-2" "t1").1
        (createUser oneUserState aliceInput "u-2" "t1").2.UUID = .ok r ∧
      r.Username = aliceInput.Username ∧ r.Age = aliceInput.Age ∧
      r.Email = aliceInput.Email ∧ r.Phone = aliceInput.Phone :=
  C2_create_get_roundtrip oneUserState aliceInput "u-2" "t1"
    (by refine ⟨?_, ?_, ?_⟩ <;> decide) (by decide)

/-! ### C5 -/

/-- C5: a delete followed by a get on the same identifier returns NotFound:
after `deleteUser` no mapping row for the identifier remains, so the lookup
join finds no row and `getUserByUUID` fails with `sql.ErrNoRows`.  (This
holds for every store and identifier, in particular for identifiers present
in the store.) -/
theorem C5_delete_then_get_notFound (s : State) (uid : String) :
    (∀ m ∈ (deleteUser s uid).mappings, m.uuid ≠ uid) ∧
    getUserByUUID (deleteUser s uid) uid = .error .noRows := by
  have hm : ∀ m ∈ (deleteUser s uid).mappings, m.uuid ≠ uid := by
    intro m hm
    simp only [deleteUser, List.mem_filter, Bool.not_eq_eq_eq_not,
      Bool.not_true, beq_eq_false_iff_ne] at hm
    exact hm.2
  refine ⟨hm, ?_⟩
  simp only [getUserByUUID, joinFind_eq_none _ _ _ hm]

/-! ### C3 -/

/-- C3 counterexample: at the empty store with an unresolved identifier,
`updateUser` does fail with NotFound (`sql.ErrNoRows`), but the update
handler responds 400, not 404 as the claim states. -/
theorem C3_counterexample :
    updateUser emptyState unknownInput = .error .noRows ∧
    (UpdateUserHandler "PUT" (some unknownInput) emptyState).status = 400 ∧
    (UpdateUserHandler "PUT" (some unknownInput) emptyState).status ≠ 404 :=
  ⟨rfl, by decide, by decide⟩

/-- C3 (amended): an update whose external identifier resolves to no mapping
entry fails with NotFound, and the handler surfaces every `updateUser`
failure — including NotFound — as HTTP status 400 (the update handler never
responds 404). -/
theorem C3_update_unresolved_is_400 (s : State) (inp : User)
    (hnone : ∀ m ∈ s.mappings, m.uuid ≠ inp.UUID) :
    updateUser s inp = .error .noRows ∧
    (UpdateUserHandler "PUT" (some inp) s).status = 400 := by
  have hupd : updateUser s inp = .error .noRows := by
    simp only [updateUser, getUserByUUID, joinFind_eq_none _ _ _ hnone]
  refine ⟨hupd, ?_⟩
  simp only [UpdateUserHandler, hupd]
  rfl

/-- Witness for C3 (amended): the empty store and an unresolved identifier. -/
theorem C3_update_unresolved_is_400_witness :
    updateUser emptyState unknownInput = .error .noRows ∧
    (UpdateUserHandler "PUT" (some unknownInput) emptyState).status = 400 :=
  C3_update_unresolved_is_400 emptyState unknownInput (by decide)

/-! ### C4 -/

/-- C4: a get request with a non-empty identifier that matches no mapping
entry is answered 404 after one store query (the lookup fails with
`sql.ErrNoRows`); a get request with a missing identifier is answered 400
with zero store queries, the state unchanged in both cases. -/
theorem C4_get_unknown_404_missing_400 (s : State) (id : String)
    (hid : id ≠ "") (hnone : ∀ m ∈ s.mappings, m.uuid ≠ id) :
    GetUserHandler "GET" id s = { status := 404, state := s, ops := 1 } ∧
    GetUserHandler "GET" "" s = { status := 400, state := s, ops := 0 } := by
  constructor
  · simp only [GetUserHandler, getUserByUUID, joinFind_eq_none _ _ _ hnone]
    simp [hid]
  · rfl

/-- Witness for C4: unknown identifier against the one-user store. -/
theorem C4_get_unknown_404_missing_400_witness :
    GetUserHandler "GET" "u-404" oneUserState =
      { status := 404, state := oneUserState, ops := 1 } ∧
    GetUserHandler "GET" "" oneUserState =
      { status := 400, state := oneUserState, ops := 0 } :=
  C4_get_unknown_404_missing_400 oneUserState "u-404" (by decide) (by decide)

end ExampleGoCRUD

namespace ExampleGoCRUD

/-! ### C6 -/

/-- C6: after a successful update, only username/age/email/phone of the
resolved user row change: the mapping table, the autoincrement counter, and
every row's internal key and creation timestamp are unchanged, rows other
than the resolved one are untouched, and a get by the original identifier
returns the resolved record with exactly the four fields replaced (same
identifier, key and timestamp). -/
theorem C6_update_frame (s : State) (inp r : User)
    (hres : getUserByUUID s inp.UUID = .ok r) :
    ∃ s', updateUser s inp = .ok s' ∧
      s'.mappings = s.mappings ∧
      s'.nextId = s.nextId ∧
      s'.users.map (fun u => (u.id, u.createAt)) =
        s.users.map (fun u => (u.id, u.createAt)) ∧
      (∀ u ∈ s.users, u.id ≠ r.ID → u ∈ s'.users) ∧
      getUserByUUID s' inp.UUID =
        .ok { r with Username := inp.Username, Age := inp.Age,
                     Email := inp.Email, Phone := inp.Phone } := by
  obtain ⟨row, hjj, hr⟩ :
      ∃ row, joinFind s.users inp.UUID s.mappings = some row ∧
        r = { scanRow row with UUID := inp.UUID } := by
    unfold getUserByUUID at hres
    cases hjj : joinFind s.users inp.UUID s.mappings with
    | none => rw [hjj] at hres; cases hres
    | some row =>
      rw [hjj] at hres
      exact ⟨row, rfl, (Except.ok.inj hres).symm⟩
  subst hr
  refine ⟨{ s with users := s.users.map (fun u =>
      if u.id = ({ scanRow row with UUID := inp.UUID } : User).ID then
        { u with username := inp.Username, age := inp.Age,
                 email := inp.Email, phone := inp.Phone }
      else u) }, ?_, rfl, rfl, ?_, ?_, ?_⟩
  · simp only [updateUser, hres]
  · rw [List.map_map]
    have hcomp : ((fun u : UserRow => (u.id, u.createAt)) ∘ (fun u =>
        if u.id = ({ scanRow row with UUID := inp.UUID } : User).ID then
          { u with username := inp.Username, age := inp.Age,
                   email := inp.Email, phone := inp.Phone }
        else u)) = fun u : UserRow => (u.id, u.createAt) := by
      funext u
      by_cases h : u.id = ({ scanRow row with UUID := inp.UUID } : User).ID <;>
        simp [Function.comp, h]
    rw [hcomp]
  · intro u hu hne
    exact List.mem_map.mpr ⟨u, hu, by rw [if_neg hne]⟩
  · show getUserByUUID
        { s with users := s.users.map (fun u : UserRow =>
            if u.id = row.id then
              { u with username := inp.Username, age := inp.Age,
                       email := inp.Email, phone := inp.Phone }
            else u) } inp.UUID =
      .ok { ID := row.id, UUID := inp.UUID, Username := inp.Username,
            Email := inp.Email, Phone := inp.Phone, Age := inp.Age,
            CreateAt := row.createAt }
    have hf : ∀ x : UserRow, ((fun u : UserRow =>
        if u.id = row.id then
          { u with username := inp.Username, age := inp.Age,
                   email := inp.Email, phone := inp.Phone }
        else u) x).id = x.id := by
      intro x
      by_cases h : x.id = row.id <;> simp [h]
    simp only [getUserByUUID]
    rw [joinFind_map s.users _ inp.UUID s.mappings hf, hjj]
    simp [scanRow]

/-- Witness for C6: a concrete successful update of `"u-1"` in the one-user
store. -/
theorem C6_update_frame_witness :
    ∃ s', updateUser oneUserState bobInput = .ok s' ∧
      s'.mappings = oneUserState.mappings ∧
      s'.nextId = oneUserState.nextId ∧
      s'.users.map (fun u => (u.id, u.createAt)) =
        oneUserState.users.map (fun u => (u.id, u.createAt)) ∧
      (∀ u ∈ oneUserState.users, u.id ≠ aliceRecord.ID → u ∈ s'.users) ∧
      getUserByUUID s' bobInput.UUID =
        .ok { aliceRecord with Username := bobInput.Username,
                               Age := bobInput.Age, Email := bobInput.Email,
                               Phone := bobInput.Phone } :=
  C6_update_frame oneUserState bobInput aliceRecord rfl

end ExampleGoCRUD

namespace ExampleGoCRUD

/-! ### C7 -/

/-- C7: the external identifier in a creation response is the value produced
by the server-side generator, it is syntactically a valid UUID and distinct
across two creations whenever the generator's outputs are (the `uuid`
library guarantee), and any uuid value supplied by the client in the request
body is overwritten: the whole creation result is independent of it. -/
theorem C7_server_assigned_uuid (s : State) (inp inp2 : User)
    (g1 g2 now now2 : String)
    (hval : isValidUUID g1 = true) (hne : g1 ≠ g2) :
    isValidUUID (createUser s inp g1 now).2.UUID = true ∧
    (createUser s inp g1 now).2.UUID ≠
      (createUser (createUser s inp g1 now).1 inp2 g2 now2).2.UUID ∧
    (∀ c : String,
      createUser s { inp with UUID := c } g1 now = createUser s inp g1 now) :=
  ⟨hval, hne, fun _ => rfl⟩

/-- Witness for C7: two concrete valid, distinct UUIDs. -/
theorem C7_server_assigned_uuid_witness :
    isValidUUID (createUser emptyState aliceInput uuidA "t0").2.UUID = true ∧
    (createUser emptyState aliceInput uuidA "t0").2.UUID ≠
      (createUser (createUser emptyState aliceInput uuidA "t0").1 bobInput
        uuidB "t1").2.UUID ∧
    (∀ c : String,
      createUser emptyState { aliceInput with UUID := c } uuidA "t0" =
        createUser emptyState aliceInput uuidA "t0") :=
  C7_server_assigned_uuid emptyState aliceInput bobInput uuidA uuidB "t0" "t1"
    (by decide) (by decide)

/-! ### C8 -/

theorem createList_users_length (l : List CreateReq) (s : State) :
    (createList s l).users.length = s.users.length + l.length := by
  induction l generalizing s with
  | nil => rfl
  | cons t ts ih =>
    show (createList (createUser s t.inp t.gid t.now).1 ts).users.length = _
    rw [ih]
    show (s.users ++ [_]).length + ts.length = _
    rw [List.length_append]
    simp
    omega

theorem createList_users_mono (l : List CreateReq) (s : State)
    (row : UserRow) (h : row ∈ s.users) : row ∈ (createList s l).users := by
  induction l generalizing s with
  | nil => exact h
  | cons t ts ih =>
    show row ∈ (createList (createUser s t.inp t.gid t.now).1 ts).users
    exact ih _ (by
      show row ∈ s.users ++ [_]
      exact List.mem_append_left _ h)

theorem createList_row_exists (l : List CreateReq) (s : State) :
    ∀ t ∈ l, ∃ row ∈ (createList s l).users,
      row.username = t.inp.Username ∧ row.age = t.inp.Age ∧
      row.email = t.inp.Email ∧ row.phone = t.inp.Phone := by
  induction l generalizing s with
  | nil => intro t ht; cases ht
  | cons hd ts ih =>
    intro t ht
    rcases List.mem_cons.mp ht with ht | ht
    · subst ht
      refine ⟨{ id := s.nextId, username := t.inp.Username, age := t.inp.Age,
                email := t.inp.Email, phone := t.inp.Phone,
                createAt := t.now }, ?_, rfl, rfl, rfl, rfl⟩
      show _ ∈ (createList (createUser s t.inp t.gid t.now).1 ts).users
      refine createList_users_mono ts _ _ ?_
      show _ ∈ s.users ++ [_]
      exact List.mem_append_right _ (List.mem_singleton.mpr rfl)
    · exact ih (createUser s hd.inp hd.gid hd.now).1 t ht

/-- C8: the list endpoint returns every user row, unfiltered and unpaginated:
after the creations in `l` the listed body has exactly the original row count
plus one entry per creation (hence at least `l.length` entries), and for each
creation request some listed entry carries its username, age, email and
phone. -/
theorem C8_list_returns_all (s : State) (l : List CreateReq) :
    ((GetUsersHandler "GET" (createList s l)).listBody.getD []).length =
      s.users.length + l.length ∧
    ∀ t ∈ l,
      ∃ entry ∈ (GetUsersHandler "GET" (createList s l)).listBody.getD [],
        entry.Username = t.inp.Username ∧ entry.Age = t.inp.Age ∧
        entry.Email = t.inp.Email ∧ entry.Phone = t.inp.Phone := by
  have hbody : (GetUsersHandler "GET" (createList s l)).listBody.getD [] =
      (createList s l).users.map scanRow := rfl
  constructor
  · rw [hbody, List.length_map, createList_users_length]
  · intro t ht
    obtain ⟨row, hrow, h1, h2, h3, h4⟩ := createList_row_exists l s t ht
    refine ⟨scanRow row, ?_, h1, h2, h3, h4⟩
    rw [hbody]
    exact List.mem_map_of_mem scanRow hrow

/-- Witness for C8: two concrete creations against the empty store. -/
theorem C8_list_returns_all_witness :
    ((GetUsersHandler "GET" (createList emptyState twoReqs)).listBody.getD
      []).length = emptyState.users.length + twoReqs.length ∧
    ∀ t ∈ twoReqs,
      ∃ entry ∈
        (GetUsersHandler "GET" (createList emptyState twoReqs)).listBody.getD
          [],
        entry.Username = t.inp.Username ∧ entry.Age = t.inp.Age ∧
        entry.Email = t.inp.Email ∧ entry.Phone = t.inp.Phone :=
  C8_list_returns_all emptyState twoReqs

/-! ### C9 -/

/-- C9: on every endpoint, a request whose method is not that endpoint's
single allowed method is answered 405 with the store state unchanged and no
store statement executed — each endpoint under only its own disequality, so
e.g. a GET to `/user/add` or a POST to `/user/get` is covered. -/
theorem C9_wrong_method_405 (s : State) (m : String) (body : Option User)
    (g now id : String) :
    (m ≠ "POST" →
      AddUserHandler m body g now s =
        { status := 405, state := s, ops := 0 }) ∧
    (m ≠ "GET" →
      GetUsersHandler m s = { status := 405, state := s, ops := 0 }) ∧
    (m ≠ "GET" →
      GetUserHandler m id s = { status := 405, state := s, ops := 0 }) ∧
    (m ≠ "DELETE" →
      DeleteUserHandler m id s = { status := 405, state := s, ops := 0 }) ∧
    (m ≠ "PUT" →
      UpdateUserHandler m body s = { status := 405, state := s, ops := 0 }) := by
  refine ⟨?_, ?_, ?_, ?_, ?_⟩ <;> intro h
  · simp [AddUserHandler, h]
  · simp [GetUsersHandler, h]
  · simp [GetUserHandler, h]
  · simp [DeleteUserHandler, h]
  · simp [UpdateUserHandler, h]

/-- Witness for C9: each endpoint hit with another endpoint's legitimate
method — GET to add, POST to list and get, GET to delete and update. -/
theorem C9_wrong_method_405_witness :
    AddUserHandler "GET" (some aliceInput) "u-2" "t1" oneUserState =
      { status := 405, state := oneUserState, ops := 0 } ∧
    GetUsersHandler "POST" oneUserState =
      { status := 405, state := oneUserState, ops := 0 } ∧
    GetUserHandler "POST" "u-1" oneUserState =
      { status := 405, state := oneUserState, ops := 0 } ∧
    DeleteUserHandler "GET" "u-1" oneUserState =
      { status := 405, state := oneUserState, ops := 0 } ∧
    UpdateUserHandler "GET" (some bobInput) oneUserState =
      { status := 405, state := oneUserState, ops := 0 } :=
  ⟨(C9_wrong_method_405 oneUserState "GET" (some aliceInput) "u-2" "t1"
      "u-1").1 (by decide),
   (C9_wrong_method_405 oneUserState "POST" (some aliceInput) "u-2" "t1"
      "u-1").2.1 (by decide),
   (C9_wrong_method_405 oneUserState "POST" (some aliceInput) "u-2" "t1"
      "u-1").2.2.1 (by decide),
   (C9_wrong_method_405 oneUserState "GET" (some aliceInput) "u-2" "t1"
      "u-1").2.2.2.1 (by decide),
   (C9_wrong_method_405 oneUserState "GET" (some bobInput) "u-2" "t1"
      "u-1").2.2.2.2 (by decide)⟩

/-! ### C10 -/

/-- C10: every entry of the list response has an empty `uuid`: the list query
selects only from the `users` table, which has no uuid column, so the `UUID`
field keeps its zero value; yet a get by identifier returns the record with
its real UUID filled in. -/
theorem C10_list_has_empty_uuid (s : State) (uid : String) (r : User) :
    (∀ entry ∈ (GetUsersHandler "GET" s).listBody.getD [], entry.UUID = "") ∧
    (getUserByUUID s uid = .ok r → r.UUID = uid) := by
  constructor
  · intro entry he
    have hbody : (GetUsersHandler "GET" s).listBody.getD [] =
        s.users.map scanRow := rfl
    rw [hbody] at he
    obtain ⟨row, _, hrow⟩ := List.mem_map.mp he
    rw [← hrow]
    rfl
  · intro h
    unfold getUserByUUID at h
    cases hjj : joinFind s.users uid s.mappings with
    | none => rw [hjj] at h; cases h
    | some row =>
      rw [hjj] at h
      rw [← Except.ok.inj h]

/-- Witness for C10: the one-user store; the list entry for alice has an
empty uuid while get by `"u-1"` returns her record with uuid `"u-1"`. -/
theorem C10_list_has_empty_uuid_witness :
    (∀ entry ∈ (GetUsersHandler "GET" oneUserState).listBody.getD [],
      entry.UUID = "") ∧
    (getUserByUUID oneUserState "u-1" = .ok aliceRecord →
      aliceRecord.UUID = "u-1") :=
  C10_list_has_empty_uuid oneUserState "u-1" aliceRecord

end ExampleGoCRUD
